import Mathlib

/-!
# Verification of the `updates` voice-to-Readwise capture pipeline

Shallow embedding of the core of the `updates` repository:

* `src/updates/schemas.py` — the data model (`Highlight`, `SubmissionRecord`,
  `Category`, `LocationType`, `ProcessResponse`).
* `src/updates/state.py` — the in-memory Recent-Activity Store
  (`add_submission`, `get_recent`, `format_recent_context`, `set_context`,
  `get_context`).
* `src/updates/services/claude.py` — the extraction adapter's context-string
  construction and normalization of the loosely-typed `ParsedHighlight`.
* `src/updates/services/readwise.py` — the submission adapter
  (`submit_highlight` with its title guard and payload construction).
* `src/updates/api.py` — the `/process` pipeline orchestrator
  (`process_audio`), with the three external providers modelled as oracles.

Timestamps are modelled as natural-number seconds (a `datetime` is totally
ordered and only compared, subtracted by a constant window, and formatted as
`%H:%M`; all timestamps produced by the program are `now()` values, hence
non-negative, so truncated `Nat` subtraction for the window cutoff agrees
with `datetime` arithmetic).  The module-level mutable state of `state.py`
is passed explicitly as a `StoreState` value; network calls are modelled as
oracle functions passed to the embedded code, and `Except` models Python
exceptions.
-/

/-- `Category` enum from `schemas.py`. -/
inductive Category where
  | books
  | articles
  | podcasts
  | tweets
deriving DecidableEq, Repr

/-- `.value` of a `Category` member (its string value in the Python enum). -/
def Category.value : Category → String
  | .books => "books"
  | .articles => "articles"
  | .podcasts => "podcasts"
  | .tweets => "tweets"

/-- `Category(s)` construction from a string: succeeds exactly on the four
member values, as the Python `Category(...)` constructor does. -/
def Category.fromString : String → Option Category
  | "books" => some .books
  | "articles" => some .articles
  | "podcasts" => some .podcasts
  | "tweets" => some .tweets
  | _ => none

/-- `LocationType` enum from `schemas.py`. -/
inductive LocationType where
  | page
  | order
  | time_offset
deriving DecidableEq, Repr

/-- `.value` of a `LocationType` member. -/
def LocationType.value : LocationType → String
  | .page => "page"
  | .order => "order"
  | .time_offset => "time_offset"

/-- `LocationType(s)` construction from a string. -/
def LocationType.fromString : String → Option LocationType
  | "page" => some .page
  | "order" => some .order
  | "time_offset" => some .time_offset
  | _ => none

/-- `Highlight` model from `schemas.py`: `text` required, all other fields
optional (`None` by default). -/
structure Highlight where
  text : String
  title : Option String := none
  author : Option String := none
  category : Option Category := none
  note : Option String := none
  location : Option Int := none
  location_type : Option LocationType := none
deriving DecidableEq, Repr

/-- `SubmissionRecord` model from `schemas.py`. -/
structure SubmissionRecord where
  transcript : String
  highlight : Highlight
  readwise_id : Option Int
  created_at : Nat
deriving DecidableEq, Repr

/-- `ProcessResponse` model from `schemas.py` (result of `/process`). -/
structure ProcessResponse where
  success : Bool
  transcript : String
  highlight : Highlight
  readwise_id : Option Int := none
deriving DecidableEq, Repr

/-- The module-level mutable state of `state.py`: `_submissions`,
`_current_context`, `_context_set_at`. -/
structure StoreState where
  submissions : List SubmissionRecord := []
  current_context : Option String := none
  context_set_at : Option Nat := none
deriving DecidableEq, Repr

/-- `state.add_submission`: appends a new record with `created_at = now`
and returns it together with the updated state. -/
def add_submission (transcript : String) (highlight : Highlight)
    (readwise_id : Option Int) (now : Nat) (st : StoreState) :
    SubmissionRecord × StoreState :=
  let record : SubmissionRecord :=
    { transcript := transcript
      highlight := highlight
      readwise_id := readwise_id
      created_at := now }
  (record, { st with submissions := st.submissions ++ [record] })

/-- Ordering used by `get_recent`: `sort(key=lambda s: s.created_at,
reverse=True)`, i.e. `created_at` descending. -/
def byCreatedDesc (a b : SubmissionRecord) : Prop :=
  b.created_at ≤ a.created_at

instance : DecidableRel byCreatedDesc := fun a b =>
  inferInstanceAs (Decidable (b.created_at ≤ a.created_at))

instance : IsTotal SubmissionRecord byCreatedDesc :=
  ⟨fun a b => (Nat.le_total b.created_at a.created_at).imp id id⟩

instance : IsTrans SubmissionRecord byCreatedDesc :=
  ⟨fun _ _ _ hab hbc => Nat.le_trans hbc hab⟩

/-- `state.get_recent`: keep the submissions with
`created_at >= now - timedelta(hours=hours)`, sort them by `created_at`
descending (Python's stable sort; modelled by stable insertion sort) and
truncate to `limit`. -/
def get_recent (hours limit : Nat) (now : Nat) (subs : List SubmissionRecord) :
    List SubmissionRecord :=
  let cutoff := now - hours * 3600
  let recent := subs.filter fun s => decide (cutoff ≤ s.created_at)
  (recent.insertionSort byCreatedDesc).take limit

/-- Zero-padded two-digit decimal rendering of a field of `%H:%M`. -/
def pad2 (n : Nat) : String :=
  if n < 10 then "0" ++ toString n else toString n

/-- `created_at.strftime("%H:%M")` on a timestamp in seconds. -/
def strftime_hm (t : Nat) : String :=
  pad2 (t / 3600 % 24) ++ ":" ++ pad2 (t / 60 % 60)

/-- The line built for one record in `state.format_recent_context`:
`f"- [{title}] {text} ({time_str})"` with
`title = s.highlight.title or "Unknown"` (Python `or`: `None` and `""` are
falsy) and `text` truncated to 50 characters plus `"..."` when longer
than 50. -/
def recent_context_line (s : SubmissionRecord) : String :=
  let title := match s.highlight.title with
    | some t => if t = "" then "Unknown" else t
    | none => "Unknown"
  let text := if s.highlight.text.length > 50
    then s.highlight.text.take 50 ++ "..."
    else s.highlight.text
  let time_str := strftime_hm s.created_at
  "- [" ++ title ++ "] " ++ text ++ " (" ++ time_str ++ ")"

/-- `state.format_recent_context`: empty list gives `""`; otherwise a
`"Recent updates:"` header line followed by one line per record, joined
with newlines. -/
def format_recent_context (submissions : List SubmissionRecord) : String :=
  match submissions with
  | [] => ""
  | _ =>
    let lines := "Recent updates:" :: submissions.map recent_context_line
    String.intercalate "\n" lines

/-- `state.set_context`: overwrites `_current_context` and
`_context_set_at = now()` in one step. -/
def set_context (text : String) (now : Nat) (st : StoreState) : StoreState :=
  { st with current_context := some text, context_set_at := some now }

/-- `state.get_context`: read-only snapshot of the pair. -/
def get_context (st : StoreState) : Option String × Option Nat :=
  (st.current_context, st.context_set_at)

/-! ## Extraction adapter (`services/claude.py`) -/

/-- `ParsedHighlight` from `claude.py`: the loosely-typed structured-output
model returned by the extraction provider, with sentinel "unset" values
(empty string for text fields, `0` for `location`). -/
structure ParsedHighlight where
  text : String
  title : String := ""
  author : String := ""
  category : String := "books"
  note : String := ""
  location : Int := 0
  location_type : String := ""
deriving DecidableEq, Repr

/-- The context payload built by `api.py` and passed to `claude.parse`:
`{"current": current, "recent": [{"title": ..., "text": ...}, ...]}`.
Every `recent` entry is a dict whose `"title"` key is always present (with a
possibly-`None` value) and whose `"text"` key is always present. -/
structure ContextPayload where
  current : Option String
  recent : List (Option String × String)
deriving DecidableEq, Repr

/-- Models `r.get('title', 'Unknown')` followed by f-string interpolation in
`claude.py`, applied to a recent-entry dict built by `api.py`: the `"title"`
key is always present there, so `dict.get` returns the stored value — the
`'Unknown'` default would apply only if the key were missing — and a Python
f-string renders the value `None` as the text `"None"`. -/
def fstr_title_get (title : Option String) : String :=
  match title with
  | some t => t
  | none => "None"

/-- The `context_str` accumulation of `claude.parse` (lines 66–74):
append `"\nCurrent context: ..."` when `context.get("current")` is truthy
(present and non-empty), then `"\nRecent highlights:"` and one
`"\n- [title] text[:100]"` line per recent entry when `context.get("recent")`
is truthy (a non-empty list). -/
def context_str_of (c : ContextPayload) : String :=
  let s := ""
  let s := match c.current with
    | some cur => if cur = "" then s else s ++ "\nCurrent context: " ++ cur
    | none => s
  match c.recent with
  | [] => s
  | recent =>
    recent.foldl
      (fun acc r => acc ++ "\n- [" ++ fstr_title_get r.1 ++ "] " ++ r.2.take 100)
      (s ++ "\nRecent highlights:")

/-- The normalization at the end of `claude.parse` (lines 91–108): convert
the sentinel-typed `ParsedHighlight` into a `Highlight`, treating empty
strings as `None`, validating `category` against
`("books", "articles", "podcasts", "tweets")` and `location_type` against
`("page", "order", "time_offset")`, and treating `location <= 0` as `None`. -/
def normalize_parsed (parsed : ParsedHighlight) : Highlight :=
  let category : Option Category :=
    if parsed.category ≠ "" ∧ parsed.category ∈ ["books", "articles", "podcasts", "tweets"]
    then Category.fromString parsed.category
    else none
  let location_type : Option LocationType :=
    if parsed.location_type ≠ "" ∧ parsed.location_type ∈ ["page", "order", "time_offset"]
    then LocationType.fromString parsed.location_type
    else none
  { text := parsed.text
    title := if parsed.title ≠ "" then some parsed.title else none
    author := if parsed.author ≠ "" then some parsed.author else none
    category := category
    note := if parsed.note ≠ "" then some parsed.note else none
    location := if parsed.location > 0 then some parsed.location else none
    location_type := location_type }

/-- `claude.parse`: build the user message from the transcript and the
optional context, call the model (the network call is the oracle `llm`,
taking the user message and returning a `ParsedHighlight` or raising), and
normalize the result.  Any exception is wrapped as
`ParsingError(f"Parsing failed: {e}")`. -/
def claude_parse (llm : String → Except String ParsedHighlight)
    (transcript : String) (context : Option ContextPayload) :
    Except String Highlight :=
  let context_str := match context with
    | none => ""
    | some c => context_str_of c
  let user_content := "Transcript: " ++ transcript ++
    (if context_str = "" then "" else "\n\nContext:" ++ context_str)
  match llm user_content with
  | .error e => .error ("Parsing failed: " ++ e)
  | .ok parsed => .ok (normalize_parsed parsed)

/-! ## Submission adapter (`services/readwise.py`) -/

/-- The `highlight_data` dict built in `submit_highlight`: `text`, `title`
and `source_type` are always present; an optional field with value `none`
models a key omitted from the dict. -/
structure RwPayload where
  text : String
  title : String
  source_type : String
  author : Option String := none
  category : Option String := none
  note : Option String := none
  location : Option Int := none
  location_type : Option String := none
deriving DecidableEq, Repr

/-- The JSON body returned by the Readwise API, as inspected by
`submit_highlight`: either not a (non-empty-checkable) list at all, or a
list of created-highlight dicts, each modelled by its optional `"id"`
field. -/
inductive RwResponse where
  | notList
  | list (items : List (Option Int))
deriving DecidableEq, Repr

/-- A failure of the remote call: `httpx.HTTPStatusError` raised by
`raise_for_status` (carrying the status code), or any other exception. -/
inductive RwError where
  | statusError (code : Nat)
  | other (msg : String)
deriving DecidableEq, Repr

/-- The id extraction of `submit_highlight`:
`if data and isinstance(data, list) and len(data) > 0: return
data[0].get("id", 0)` else `return 0`. -/
def response_id : RwResponse → Int
  | .notList => 0
  | .list [] => 0
  | .list (i :: _) => i.getD 0

/-- The payload construction of `submit_highlight` (lines 26–41): optional
fields are added to the dict only when truthy (`author`, `category`, `note`,
`location_type`) or non-`None` (`location`).  A `Category`/`LocationType`
member is a non-empty-string enum value, hence always truthy when present;
an empty-string `author`/`note` is falsy and omitted. -/
def build_highlight_data (highlight : Highlight) : RwPayload :=
  { text := highlight.text
    title := highlight.title.getD ""
    source_type := "updates_app"
    author := match highlight.author with
      | some a => if a = "" then none else some a
      | none => none
    category := highlight.category.map Category.value
    note := match highlight.note with
      | some n => if n = "" then none else some n
      | none => none
    location := highlight.location
    location_type := highlight.location_type.map LocationType.value }

/-- `readwise.submit_highlight`: the title guard
(`if not highlight.title: raise ReadwiseError(...)` — `None` and `""` are
falsy) runs before any network interaction; on the success path the payload
is posted (the network call is the oracle `remote`) and the returned id
extracted.  The second component is the list of payloads actually posted to
the remote service, in order — the call log. -/
def submit_highlight (highlight : Highlight)
    (remote : RwPayload → Except RwError RwResponse) :
    Except String Int × List RwPayload :=
  if highlight.title.getD "" = "" then
    (.error "Title is required for Readwise submission", [])
  else
    let highlight_data := build_highlight_data highlight
    match remote highlight_data with
    | .ok data => (.ok (response_id data), [highlight_data])
    | .error (.statusError code) =>
      (.error ("Readwise API error: " ++ toString code), [highlight_data])
    | .error (.other msg) =>
      (.error ("Failed to submit to Readwise: " ++ msg), [highlight_data])

/-! ## Pipeline orchestrator (`api.py`, `/process`) -/

/-- An `HTTPException(status_code, detail)` raised by a route handler. -/
structure HTTPError where
  status : Nat
  detail : String
deriving DecidableEq, Repr

/-- The context dict built in `process_audio` (api.py lines 88–96) before
calling `claude.parse`: `current` from `state.get_context()` and, for each
record of `state.get_recent()` (defaults: 2 hours, limit 10), the dict
`{"title": s.highlight.title, "text": s.highlight.text[:100]}`. -/
def build_context (now : Nat) (st : StoreState) : ContextPayload :=
  { current := (get_context st).1
    recent := (get_recent 2 10 now st.submissions).map
      fun s => (s.highlight.title, s.highlight.text.take 100) }

/-- `api.process_audio` (`POST /process`): transcribe, build context, parse,
submit, record.  The transcription outcome (text of the audio, or a
`TranscriptionError` message) and the two network oracles are parameters;
the pair returned is the HTTP outcome together with the store state after
the call (unchanged when an exception unwound the handler). -/
def process_audio (transcribe : Except String String)
    (llm : String → Except String ParsedHighlight)
    (remote : RwPayload → Except RwError RwResponse)
    (now : Nat) (st : StoreState) :
    Except HTTPError ProcessResponse × StoreState :=
  match transcribe with
  | .error e => (.error { status := 500, detail := "Transcription failed: " ++ e }, st)
  | .ok transcript =>
    let context := build_context now st
    match claude_parse llm transcript (some context) with
    | .error e => (.error { status := 500, detail := "Parsing failed: " ++ e }, st)
    | .ok highlight =>
      match (submit_highlight highlight remote).1 with
      | .error e =>
        (.error { status := 500, detail := "Readwise submission failed: " ++ e }, st)
      | .ok readwise_id =>
        let st' := (add_submission transcript highlight (some readwise_id) now st).2
        (.ok { success := true
               transcript := transcript
               highlight := highlight
               readwise_id := some readwise_id }, st')

/-! ## Concrete fixtures used by witnesses and counterexamples -/

set_option maxRecDepth 20000

/-- A submission record 100 s after the epoch, with no title. -/
def recNoTitle : SubmissionRecord :=
  { transcript := "t1", highlight := { text := "hi" }, readwise_id := some 1,
    created_at := 100 }

/-- A submission record at 9000 s, with title `"B"`. -/
def recTitled : SubmissionRecord :=
  { transcript := "t2", highlight := { text := "ho", title := some "B" },
    readwise_id := none, created_at := 9000 }

/-- A submission record at 500 s. -/
def recOld : SubmissionRecord :=
  { transcript := "t3", highlight := { text := "hu" }, readwise_id := some 3,
    created_at := 500 }

/-- Extraction oracle answering every prompt with a fixed parsed record
(source "Atomic Habits", category defaulting to `"books"`). -/
def llmAtomic : String → Except String ParsedHighlight :=
  fun _ => .ok { text := "small habits", title := "Atomic Habits" }

/-- Remote oracle failing every post with HTTP 500. -/
def remoteDown : RwPayload → Except RwError RwResponse :=
  fun _ => .error (.statusError 500)

/-- Remote oracle answering every post with `[{"id": 123}]`. -/
def remoteOk123 : RwPayload → Except RwError RwResponse :=
  fun _ => .ok (.list [some 123])

/-- The spec's own description of the human-readable rendering (section 4.2
of the specification), written from its words for comparison with the
source's `format_recent_context`: empty input gives the empty string;
otherwise a `"Recent updates:"` header followed by one line per record of
the form `- [title] truncated-text (HH:MM)`, with the title defaulting to
`"Unknown"` when missing, the text truncated to 50 characters with a
trailing ellipsis marker exactly when longer than 50, and the time as
zero-padded hour:minute. -/
def render_summary_spec (submissions : List SubmissionRecord) : String :=
  if submissions.isEmpty then ""
  else
    String.intercalate "\n" ("Recent updates:" ::
      submissions.map fun s =>
        "- ["
          ++ ((s.highlight.title.filter fun t => decide (t ≠ "")).getD "Unknown")
          ++ "] "
          ++ (if s.highlight.text.length ≤ 50 then s.highlight.text
              else s.highlight.text.take 50 ++ "...")
          ++ " ("
          ++ pad2 (s.created_at / 3600 % 24) ++ ":" ++ pad2 (s.created_at / 60 % 60)
          ++ ")")

/-! ## Theorems -/

/-- **C1.** For every stored submission list and every current time,
`get_recent hours limit` returns only records from the store whose
`created_at` is at or after `now` minus the window; the result is sorted by
`created_at` descending; its length is the count of in-window records capped
at `limit` (so at most `limit`); and when the in-window count does not
exceed `limit`, every in-window record of the store is returned — exactly
those and no others. -/
theorem get_recent_window_sorted_limited (hours limit now : Nat)
    (subs : List SubmissionRecord) :
    (∀ r ∈ get_recent hours limit now subs,
        (now - hours * 3600 ≤ r.created_at) ∧ r ∈ subs)
    ∧ (get_recent hours limit now subs).length
        = min limit
            (subs.filter fun s => decide (now - hours * 3600 ≤ s.created_at)).length
    ∧ List.Pairwise byCreatedDesc (get_recent hours limit now subs)
    ∧ (∀ r ∈ subs, now - hours * 3600 ≤ r.created_at →
        (subs.filter fun s => decide (now - hours * 3600 ≤ s.created_at)).length
            ≤ limit →
        r ∈ get_recent hours limit now subs) := by
  refine ⟨?_, ?_, ?_, ?_⟩
  · intro r hr
    have hr' : r ∈ (subs.filter fun s =>
        decide (now - hours * 3600 ≤ s.created_at)).insertionSort byCreatedDesc :=
      List.mem_of_mem_take hr
    rw [List.mem_insertionSort, List.mem_filter] at hr'
    exact ⟨of_decide_eq_true hr'.2, hr'.1⟩
  · rw [get_recent, List.length_take, List.length_insertionSort]
  · exact ((List.sorted_insertionSort byCreatedDesc _).sublist
      (List.take_sublist _ _))
  · intro r hr hwin hlen
    have hmem : r ∈ (subs.filter fun s =>
        decide (now - hours * 3600 ≤ s.created_at)).insertionSort byCreatedDesc := by
      rw [List.mem_insertionSort, List.mem_filter]
      exact ⟨hr, decide_eq_true hwin⟩
    have hle : ((subs.filter fun s =>
        decide (now - hours * 3600 ≤ s.created_at)).insertionSort
          byCreatedDesc).length ≤ limit := by
      rw [List.length_insertionSort]; exact hlen
    rw [get_recent]
    rw [List.take_of_length_le hle]
    exact hmem

/-- Witness for C1: at `now = 9000`, window 2 h, limit 10, the store
`[recNoTitle, recTitled, recOld]` has exactly one in-window record
(`recTitled`, the cutoff being 1800), and the theorem's completeness part
puts it in the result; the membership part recovers its window bound. -/
theorem get_recent_window_sorted_limited_witness :
    recTitled ∈ get_recent 2 10 9000 [recNoTitle, recTitled, recOld]
    ∧ (9000 - 2 * 3600 ≤ recTitled.created_at
        ∧ recTitled ∈ [recNoTitle, recTitled, recOld]) := by
  have h := get_recent_window_sorted_limited 2 10 9000 [recNoTitle, recTitled, recOld]
  have hmem : recTitled ∈ get_recent 2 10 9000 [recNoTitle, recTitled, recOld] :=
    h.2.2.2 recTitled (by decide) (by decide) (by decide)
  exact ⟨hmem, h.1 recTitled hmem⟩

/-- **C3.** Normalization of the provider's intermediate record: empty-string
`title`/`author`/`note`/`category`/`location_type` become absent; `location`
`0` becomes absent while any positive location passes through; a `category`
outside `{books, articles, podcasts, tweets}` or a `location_type` outside
`{page, order, time_offset}` becomes absent — `normalize_parsed` is a total
function, so no input raises an error. -/
theorem normalize_parsed_sentinels_absent (p : ParsedHighlight) :
    (p.title = "" → (normalize_parsed p).title = none)
    ∧ (p.author = "" → (normalize_parsed p).author = none)
    ∧ (p.note = "" → (normalize_parsed p).note = none)
    ∧ (p.category = "" → (normalize_parsed p).category = none)
    ∧ (p.location_type = "" → (normalize_parsed p).location_type = none)
    ∧ (p.location = 0 → (normalize_parsed p).location = none)
    ∧ (0 < p.location → (normalize_parsed p).location = some p.location)
    ∧ (p.category ∉ ["books", "articles", "podcasts", "tweets"] →
        (normalize_parsed p).category = none)
    ∧ (p.location_type ∉ ["page", "order", "time_offset"] →
        (normalize_parsed p).location_type = none) := by
  refine ⟨?_, ?_, ?_, ?_, ?_, ?_, ?_, ?_, ?_⟩ <;> intro h <;>
    simp [normalize_parsed, h]

/-- Witness for C3: an all-sentinel record normalizes to all-absent fields,
and an invalid category, invalid location type and positive location are
handled as the theorem states. -/
theorem normalize_parsed_sentinels_absent_witness :
    (normalize_parsed { text := "t" : ParsedHighlight }).category = some .books
    ∧ (normalize_parsed
        { text := "t", title := "", author := "", category := "", note := "",
          location := 0, location_type := "" }).title = none
    ∧ (normalize_parsed
        { text := "t", category := "invalidvalue", location := 42,
          location_type := "bogus" }).category = none
    ∧ (normalize_parsed
        { text := "t", category := "invalidvalue", location := 42,
          location_type := "bogus" }).location_type = none
    ∧ (normalize_parsed
        { text := "t", category := "invalidvalue", location := 42,
          location_type := "bogus" }).location = some 42 := by
  refine ⟨by decide, ?_, ?_, ?_, ?_⟩
  · exact (normalize_parsed_sentinels_absent
      { text := "t", title := "", author := "", category := "", note := "",
        location := 0, location_type := "" }).1 rfl
  · exact (normalize_parsed_sentinels_absent
      { text := "t", category := "invalidvalue", location := 42,
        location_type := "bogus" }).2.2.2.2.2.2.2.1 (by decide)
  · exact (normalize_parsed_sentinels_absent
      { text := "t", category := "invalidvalue", location := 42,
        location_type := "bogus" }).2.2.2.2.2.2.2.2 (by decide)
  · exact (normalize_parsed_sentinels_absent
      { text := "t", category := "invalidvalue", location := 42,
        location_type := "bogus" }).2.2.2.2.2.2.1 (by decide)

/-- **C4.** For every highlight whose title is absent or empty,
`submit_highlight` fails at once with the title-required error and posts
nothing to the remote service (the call log is empty, and the outcome does
not depend on the remote oracle at all). -/
theorem submit_highlight_title_guard (h : Highlight)
    (remote remote' : RwPayload → Except RwError RwResponse)
    (ht : h.title = none ∨ h.title = some "") :
    submit_highlight h remote
      = (.error "Title is required for Readwise submission", [])
    ∧ submit_highlight h remote = submit_highlight h remote' := by
  rcases ht with ht | ht <;> simp [submit_highlight, ht]

/-- Witness for C4: a highlight with no title, submitted against a remote
oracle that would answer successfully, still yields the local
title-required error with an empty call log. -/
theorem submit_highlight_title_guard_witness :
    submit_highlight { text := "x" } (fun _ => .ok (.list [some 7]))
      = (.error "Title is required for Readwise submission", [])
    ∧ submit_highlight { text := "x" } (fun _ => .ok (.list [some 7]))
      = submit_highlight { text := "x" } (fun _ => .error (.other "down")) :=
  submit_highlight_title_guard { text := "x" } _ _ (Or.inl rfl)

/-- **C5.** A record is added to the store if and only if transcription,
extraction and submission all succeed: a successful `/process` response
exists exactly when the three stages return `ok`, in which case the new
store is the old one with the single new record appended; when the handler
fails, the store is returned unchanged. -/
theorem process_audio_records_iff_full_success
    (transcribe : Except String String)
    (llm : String → Except String ParsedHighlight)
    (remote : RwPayload → Except RwError RwResponse)
    (now : Nat) (st : StoreState) :
    ((∃ resp, (process_audio transcribe llm remote now st).1 = .ok resp) →
      ∃ t h i, transcribe = .ok t
        ∧ claude_parse llm t (some (build_context now st)) = .ok h
        ∧ (submit_highlight h remote).1 = .ok i
        ∧ (process_audio transcribe llm remote now st).2.submissions
            = st.submissions ++
              [{ transcript := t, highlight := h, readwise_id := some i,
                 created_at := now }])
    ∧ (∀ t h i, transcribe = .ok t →
        claude_parse llm t (some (build_context now st)) = .ok h →
        (submit_highlight h remote).1 = .ok i →
        ∃ resp, (process_audio transcribe llm remote now st).1 = .ok resp)
    ∧ ((∀ resp, (process_audio transcribe llm remote now st).1 ≠ .ok resp) →
        (process_audio transcribe llm remote now st).2 = st) := by
  cases transcribe with
  | error e =>
    refine ⟨?_, ?_, ?_⟩
    · rintro ⟨resp, hresp⟩
      simp [process_audio] at hresp
    · intro t h i hok
      exact absurd hok (by simp)
    · intro _
      simp [process_audio]
  | ok t =>
    cases hp : claude_parse llm t (some (build_context now st)) with
    | error e2 =>
      refine ⟨?_, ?_, ?_⟩
      · rintro ⟨resp, hresp⟩
        simp [process_audio, hp] at hresp
      · intro t' h i hok hph
        injection hok with h1
        subst h1
        rw [hp] at hph
        exact Except.noConfusion hph
      · intro _
        simp [process_audio, hp]
    | ok hgl =>
      cases hs : (submit_highlight hgl remote).1 with
      | error e3 =>
        refine ⟨?_, ?_, ?_⟩
        · rintro ⟨resp, hresp⟩
          simp [process_audio, hp, hs] at hresp
        · intro t' h i hok hph hsh
          injection hok with h1
          subst h1
          rw [hp] at hph
          injection hph with h2
          subst h2
          rw [hs] at hsh
          exact Except.noConfusion hsh
        · intro _
          simp [process_audio, hp, hs]
      | ok i =>
        refine ⟨?_, ?_, ?_⟩
        · intro _
          exact ⟨t, hgl, i, rfl, hp, hs,
            by simp [process_audio, hp, hs, add_submission]⟩
        · intro _ _ _ _ _ _
          exact ⟨{ success := true, transcript := t, highlight := hgl,
                   readwise_id := some i }, by simp [process_audio, hp, hs]⟩
        · intro hnone
          exact absurd (by simp [process_audio, hp, hs] :
            (process_audio (.ok t) llm remote now st).1
              = .ok { success := true, transcript := t, highlight := hgl,
                      readwise_id := some i })
            (hnone _)

/-- Witness for C5: a fully successful concrete run appends exactly one
record (transcript `"tr"`, the normalized highlight, remote id 123) to an
empty store. -/
theorem process_audio_records_iff_full_success_witness :
    (∃ resp, (process_audio (.ok "tr") llmAtomic remoteOk123 0 {}).1 = .ok resp)
    ∧ (process_audio (.ok "tr") llmAtomic remoteOk123 0 {}).2.submissions
        = [{ transcript := "tr",
             highlight := normalize_parsed { text := "small habits", title := "Atomic Habits" },
             readwise_id := some 123, created_at := 0 }] :=
  ⟨(process_audio_records_iff_full_success (.ok "tr") llmAtomic remoteOk123 0 {}).2.1
      "tr" (normalize_parsed { text := "small habits", title := "Atomic Habits" })
      123 rfl rfl rfl,
    rfl⟩

/-- **C2 (counterexample).** The claim says that when transcription and
extraction succeed but submission fails, the pipeline's final result still
reports the transcript and the highlight with `remote_id` absent.  Were
that so, the handler would return a successful `ProcessResponse` carrying
the transcript.  At this concrete run (transcript `"tr"`, extraction
succeeding with a titled highlight, remote rejecting with HTTP 500) the
handler instead raises `HTTPException(500, "Readwise submission failed:
Readwise API error: 500")` and no `ProcessResponse` — in particular none
carrying the transcript — is produced. -/
theorem process_audio_submission_failure_counterexample :
    (process_audio (.ok "tr") llmAtomic remoteDown 0 {}).1
      = .error { status := 500,
                 detail := "Readwise submission failed: Readwise API error: 500" }
    ∧ ¬ ∃ resp, (process_audio (.ok "tr") llmAtomic remoteDown 0 {}).1 = .ok resp
        ∧ resp.transcript = "tr" ∧ resp.readwise_id = none := by
  refine ⟨rfl, ?_⟩
  rintro ⟨resp, hresp, -⟩
  have h0 : (process_audio (.ok "tr") llmAtomic remoteDown 0 {}).1
      = .error { status := 500,
                 detail := "Readwise submission failed: Readwise API error: 500" } := rfl
  rw [h0] at hresp
  exact Except.noConfusion hresp

/-- **C2 (amended).** When transcription and extraction succeed but
submission fails, `/process` raises HTTP 500 with a detail naming the
submission stage and the failure message; the transcript, highlight and
remote id are not part of the result, and the store is left unchanged. -/
theorem process_audio_submission_failure_http500
    (llm : String → Except String ParsedHighlight)
    (remote : RwPayload → Except RwError RwResponse)
    (now : Nat) (st : StoreState) (t : String) (h : Highlight) (e : String)
    (hp : claude_parse llm t (some (build_context now st)) = .ok h)
    (hs : (submit_highlight h remote).1 = .error e) :
    process_audio (.ok t) llm remote now st
      = (.error { status := 500, detail := "Readwise submission failed: " ++ e },
         st) := by
  simp [process_audio, hp, hs]

/-- Witness for the amended C2: at the concrete failing run the handler
returns exactly the HTTP 500 error and the untouched empty store. -/
theorem process_audio_submission_failure_http500_witness :
    process_audio (.ok "tr") llmAtomic remoteDown 0 {}
      = (.error { status := 500,
                  detail := "Readwise submission failed: " ++ "Readwise API error: 500" },
         {}) :=
  process_audio_submission_failure_http500 llmAtomic remoteDown 0 {} "tr"
    (normalize_parsed { text := "small habits", title := "Atomic Habits" })
    "Readwise API error: 500" rfl rfl

/-- **C9.** For a highlight with a present, non-empty title, exactly one
payload is posted; in it every absent optional field is omitted entirely
(`none`, i.e. the key is not in the dict); and the returned value is the
remote-assigned id — `data[0]["id"]` — with `0` returned when the response
is not a list, an empty list, or its first element has no `"id"` key. -/
theorem submit_highlight_payload_and_id (h : Highlight)
    (remote : RwPayload → Except RwError RwResponse) (t : String)
    (ht : h.title = some t) (hne : t ≠ "") :
    (submit_highlight h remote).2 = [build_highlight_data h]
    ∧ (h.author = none → (build_highlight_data h).author = none)
    ∧ (h.category = none → (build_highlight_data h).category = none)
    ∧ (h.note = none → (build_highlight_data h).note = none)
    ∧ (h.location = none → (build_highlight_data h).location = none)
    ∧ (h.location_type = none → (build_highlight_data h).location_type = none)
    ∧ (∀ resp, remote (build_highlight_data h) = .ok resp →
        (submit_highlight h remote).1 = .ok (response_id resp))
    ∧ response_id .notList = 0
    ∧ response_id (.list []) = 0
    ∧ (∀ i rest, response_id (.list (some i :: rest)) = i)
    ∧ (∀ rest, response_id (.list (none :: rest)) = 0) := by
  refine ⟨?_, ?_, ?_, ?_, ?_, ?_, ?_, rfl, rfl, fun i rest => rfl, fun rest => rfl⟩
  · rcases hr : remote (build_highlight_data h) with err | data
    · rcases err with code | msg <;> simp [submit_highlight, ht, hne, hr]
    · simp [submit_highlight, ht, hne, hr]
  · intro hx; simp [build_highlight_data, hx]
  · intro hx; simp [build_highlight_data, hx]
  · intro hx; simp [build_highlight_data, hx]
  · intro hx; simp [build_highlight_data, hx]
  · intro hx; simp [build_highlight_data, hx]
  · intro resp hr
    simp [submit_highlight, ht, hne, hr]

/-- Witness for C9: a highlight with title `"T"` and every optional field
absent, posted against a remote answering `[{"id": 123}]`, posts exactly
one payload with all optional keys omitted and returns id 123. -/
theorem submit_highlight_payload_and_id_witness :
    (submit_highlight { text := "x", title := some "T" } remoteOk123).2
      = [build_highlight_data { text := "x", title := some "T" }]
    ∧ (build_highlight_data { text := "x", title := some "T" }).author = none
    ∧ (build_highlight_data { text := "x", title := some "T" }).location = none
    ∧ (submit_highlight { text := "x", title := some "T" } remoteOk123).1
      = .ok (response_id (.list [some 123]))
    ∧ response_id (.list [some 123]) = 123 := by
  have h := submit_highlight_payload_and_id { text := "x", title := some "T" }
    remoteOk123 "T" rfl (by decide)
  exact ⟨h.1, h.2.1 rfl, h.2.2.2.2.1 rfl,
    h.2.2.2.2.2.2.1 (.list [some 123]) rfl, rfl⟩

/-- **C10.** For a highlight with a present, non-empty title: an
empty-string `author` or `note` is omitted from the payload exactly like an
absent one, while `location` is copied verbatim — only `None` is omitted —
so a present zero location is sent as `0`. -/
theorem submit_payload_empty_string_vs_zero_location (h : Highlight)
    (remote : RwPayload → Except RwError RwResponse) (t : String)
    (ht : h.title = some t) (hne : t ≠ "") :
    (submit_highlight h remote).2 = [build_highlight_data h]
    ∧ (h.author = some "" → (build_highlight_data h).author = none)
    ∧ (h.note = some "" → (build_highlight_data h).note = none)
    ∧ (build_highlight_data h).location = h.location
    ∧ (h.location = some 0 → (build_highlight_data h).location = some 0) := by
  refine ⟨?_, ?_, ?_, rfl, ?_⟩
  · rcases hr : remote (build_highlight_data h) with err | data
    · rcases err with code | msg <;> simp [submit_highlight, ht, hne, hr]
    · simp [submit_highlight, ht, hne, hr]
  · intro hx; simp [build_highlight_data, hx]
  · intro hx; simp [build_highlight_data, hx]
  · intro hx; simp [build_highlight_data, hx]

/-- Witness for C10: empty-string author and note are dropped from the
payload while `location = 0` is kept. -/
theorem submit_payload_empty_string_vs_zero_location_witness :
    (build_highlight_data
        { text := "x", title := some "T", author := some "", note := some "",
          location := some 0 }).author = none
    ∧ (build_highlight_data
        { text := "x", title := some "T", author := some "", note := some "",
          location := some 0 }).note = none
    ∧ (build_highlight_data
        { text := "x", title := some "T", author := some "", note := some "",
          location := some 0 }).location = some 0 := by
  have h := submit_payload_empty_string_vs_zero_location
    { text := "x", title := some "T", author := some "", note := some "",
      location := some 0 }
    remoteOk123 "T" rfl (by decide)
  exact ⟨h.2.1 rfl, h.2.2.1 rfl, h.2.2.2.2 rfl⟩

/-- **C8.** Setting the context and then reading it returns exactly the text
set together with a timestamp at or after the time of the `set_context`
call, and a `set_context` call overwrites `current_context` and
`context_set_at` together (touching nothing else in the store). -/
theorem set_then_get_context (text : String) (now : Nat) (st : StoreState) :
    (∃ ts, get_context (set_context text now st) = (some text, some ts)
        ∧ now ≤ ts)
    ∧ (set_context text now st).current_context = some text
    ∧ (set_context text now st).context_set_at = some now
    ∧ (set_context text now st).submissions = st.submissions :=
  ⟨⟨now, rfl, Nat.le_refl now⟩, rfl, rfl, rfl⟩

/-- **C6.** Evaluation at the failing input: a store holding one in-window
record whose highlight has no title.  The context payload built for the
extraction step carries the raw absent title (`none`), not `"Unknown"`, and
the rendered context string interpolates it as `"None"` — the
`r.get('title', 'Unknown')` default in `claude.py` never fires because the
`"title"` key is always present in the dicts `api.py` builds.  The claim's
other parts do hold: the current context (or its absence) is passed
through, the text is truncated to its first 100 characters, and an empty
store yields an empty recent list and absent current context. -/
theorem build_context_raw_title_at_failing_input :
    (build_context 100 { submissions := [recNoTitle] }).recent = [(none, "hi")]
    ∧ (none : Option String) ≠ some "Unknown"
    ∧ fstr_title_get none = "None"
    ∧ context_str_of (build_context 100 { submissions := [recNoTitle] })
        = "\nRecent highlights:\n- [None] hi"
    ∧ (build_context 0 {}).recent = []
    ∧ (build_context 0 {}).current = none := by
  decide

/-- **C7 (counterexample).** The claim says every line of the non-empty
rendering is of the form `- [title] truncated-text (HH:MM)`.  Were that so,
the rendering — a newline-join of such lines — would begin with its first
line, i.e. equal `"- [" ++ rest` for some `rest`.  Rendering the single
record `recTitled` instead begins with the header line
`"Recent updates:"`. -/
theorem format_recent_context_header_counterexample :
    format_recent_context [recTitled] = "Recent updates:\n- [B] ho (02:30)"
    ∧ ¬ ∃ rest : String, format_recent_context [recTitled] = "- [" ++ rest := by
  refine ⟨by decide, ?_⟩
  rintro ⟨rest, hcontra⟩
  have h0 : format_recent_context [recTitled]
      = "Recent updates:\n- [B] ho (02:30)" := by decide
  rw [h0] at hcontra
  have h2 := congrArg String.data hcontra
  simp [String.data_append] at h2

/-- The line rendered for one record agrees with the spec's description of
a record line. -/
theorem recent_context_line_eq_spec (s : SubmissionRecord) :
    recent_context_line s
      = "- ["
        ++ ((s.highlight.title.filter fun t => decide (t ≠ "")).getD "Unknown")
        ++ "] "
        ++ (if s.highlight.text.length ≤ 50 then s.highlight.text
            else s.highlight.text.take 50 ++ "...")
        ++ " ("
        ++ pad2 (s.created_at / 3600 % 24) ++ ":" ++ pad2 (s.created_at / 60 % 60)
        ++ ")" := by
  rw [recent_context_line, strftime_hm]
  rcases ht : s.highlight.title with _ | t
  · rcases le_or_lt s.highlight.text.length 50 with hle | hlt
    · simp [Option.filter, ht, hle, Nat.not_lt.mpr hle, String.append_assoc]
    · simp [Option.filter, ht, hlt, Nat.not_le.mpr hlt, String.append_assoc]
  · rcases eq_or_ne t "" with hte | hte
    · rcases le_or_lt s.highlight.text.length 50 with hle | hlt
      · simp [Option.filter, ht, hte, hle, Nat.not_lt.mpr hle, String.append_assoc]
      · simp [Option.filter, ht, hte, hlt, Nat.not_le.mpr hlt, String.append_assoc]
    · rcases le_or_lt s.highlight.text.length 50 with hle | hlt
      · simp [Option.filter, ht, hte, hle, Nat.not_lt.mpr hle, String.append_assoc]
      · simp [Option.filter, ht, hte, hlt, Nat.not_le.mpr hlt, String.append_assoc]

/-- **C7 (amended).** Rendering an empty sequence yields the empty string;
rendering a non-empty sequence yields a `"Recent updates:"` header line
followed by one line per record of the form
`- [title] truncated-text (HH:MM)` — title defaulting to `"Unknown"`, text
truncated to 50 characters with a trailing ellipsis marker exactly when
longer than 50, time as zero-padded hour:minute — joined with newlines.
Stated as: the source's rendering coincides with the rendering written from
the spec's words. -/
theorem format_recent_context_eq_spec_render (submissions : List SubmissionRecord) :
    format_recent_context submissions = render_summary_spec submissions := by
  cases submissions with
  | nil => rfl
  | cons s rest =>
    rw [format_recent_context, render_summary_spec,
        List.map_congr_left fun x (_ : x ∈ s :: rest) => recent_context_line_eq_spec x] <;>
      simp
